import Mathlib

/-!
Verification of the BioScout retrieval-augmented question-answering engine
(server RAG module: createEmbedding, calculateSimilarity, retrieveRelevantInfo,
searchInternet, generateResponse, answerWithRAG).

The JavaScript floating-point numbers are modelled by the real numbers ℝ, as
the specification itself idealises them ("within floating-point tolerance").
Asynchronous calls that may reject are modelled by `Except String` values; a
`try { ... } catch { ... }` block becomes a `match` on the `Except` result.
Raw term-frequency vectors have natural-number entries and are kept as
`List ℕ` before the final normalisation step casts them into ℝ.
-/

namespace BioScout

/-- JavaScript `x || d` for an optional string `x`: the default is taken both
when the value is absent and when it is the empty string (falsy). -/
def jsOr (s : Option String) (d : String) : String :=
  match s with
  | none => d
  | some s => if s = "" then d else s

/-! ### Tokenisation (createEmbedding, line 84 of the RAG module)

`text.toLowerCase().replace(/[^\w\s]/g, '').split(/\s+/)`: lowercase, keep
only word characters (`[A-Za-z0-9_]`) and whitespace, split on whitespace
runs.  JavaScript's split can additionally produce empty-string tokens at the
boundaries; those have length 0 ≤ 2 and are discarded by the frequency loop,
so a splitter returning exactly the maximal non-whitespace runs is an
equivalent model of the retained-token multiset. -/

/-- A JavaScript `\w` word character. -/
def isWordChar (c : Char) : Bool := c.isAlphanum || c == '_'

/-- Lowercase a string character by character (`toLowerCase()`; equivalent
to `String.toLower`, stated over the character list so that it evaluates by
structural recursion). -/
def lowerChars (text : String) : List Char := text.toList.map Char.toLower

/-- Lowercase the text and strip every character that is neither a word
character nor whitespace (the `replace(/[^\w\s]/g, '')` step). -/
def cleanChars (text : String) : List Char :=
  (lowerChars text).filter (fun c => isWordChar c || c.isWhitespace)

/-- Split a character list into its maximal non-whitespace runs.  The second
argument accumulates the current run in reverse. -/
def wordsAux : List Char → List Char → List String
  | [], [] => []
  | [], cur => [cur.reverse.asString]
  | c :: rest, cur =>
    if c.isWhitespace then
      match cur with
      | [] => wordsAux rest []
      | _ => cur.reverse.asString :: wordsAux rest []
    else wordsAux rest (c :: cur)

/-- Split on whitespace runs (the `split(/\s+/)` step, without the
length-0 artefacts). -/
def splitWhitespaceRuns (cs : List Char) : List String := wordsAux cs []

/-- The token sequence of `createEmbedding`: lowercase, strip, split. -/
def words (text : String) : List String := splitWhitespaceRuns (cleanChars text)

/-- The tokens that survive the `word.length > 2` guard of the frequency
loop; only these contribute to the embedding. -/
def retainedTokens (text : String) : List String :=
  (words text).filter (fun w => 2 < w.length)

/-! ### Word frequencies and the hashed bag-of-words vector -/

/-- `wordFreq[word] = (wordFreq[word] || 0) + 1` on an association list. -/
def bump : List (String × Nat) → String → List (String × Nat)
  | [], w => [(w, 1)]
  | (k, v) :: rest, w =>
    if k = w then (k, v + 1) :: rest else (k, v) :: bump rest w

/-- The `words.forEach` loop building the token → frequency record, skipping
tokens of length ≤ 2. -/
def wordFreq (ws : List String) : List (String × Nat) :=
  ws.foldl (fun m w => if 2 < w.length then bump m w else m) []

/-- JavaScript `ToInt32`: wrap an integer into the signed 32-bit range. -/
def toInt32 (n : Int) : Int := (n + 2 ^ 31) % 2 ^ 32 - 2 ^ 31

/-- One step of the rolling hash `((hash << 5) - hash) + charCode`.  The `<<`
operator coerces its operand to Int32 and wraps its result to Int32; the
subsequent subtraction and addition are exact double arithmetic. -/
def hashStep (h : Int) (c : Char) : Int := toInt32 (toInt32 h * 32) - h + c.toNat

/-- The hash code of a word (`Array.from(word).reduce(...)`, seed 0). -/
def hashString (w : String) : Int := w.toList.foldl hashStep 0

/-- The fixed embedding dimension (`VECTOR_SIZE = 128`). -/
def VECTOR_SIZE : Nat := 128

/-- `Math.abs(hashCode) % VECTOR_SIZE`: the bucket index of a word. -/
def bucket (w : String) : Nat := (hashString w).natAbs % VECTOR_SIZE

/-- Add `x` into position `i` of a vector (`embedding[position] += freq`);
out-of-range positions leave the vector unchanged (they never occur, as the
bucket index is reduced modulo the vector length). -/
def addAt : List Nat → Nat → Nat → List Nat
  | [], _, _ => []
  | v :: rest, 0, x => (v + x) :: rest
  | v :: rest, i + 1, x => v :: addAt rest i x

/-- The un-normalised term-frequency vector: a zero vector of dimension 128
with each token's frequency added into its hash bucket. -/
def rawEmbedding (text : String) : List Nat :=
  (wordFreq (words text)).foldl
    (fun emb p => addAt emb (bucket p.1) p.2)
    (List.replicate VECTOR_SIZE 0)

/-! ### Normalisation and similarity -/

/-- The running sum `reduce((sum, val) => sum + val * val, 0)`. -/
noncomputable def sumSq (v : List ℝ) : ℝ := v.foldl (fun s x => s + x * x) 0

/-- The Euclidean norm `Math.sqrt(v.reduce((sum, val) => sum + val*val, 0))`. -/
noncomputable def euclNorm (v : List ℝ) : ℝ := Real.sqrt (sumSq v)

/-- The final normalisation step of `createEmbedding` (lines 107–108):
divide every component by the magnitude when it is positive, otherwise
return the vector unchanged. -/
noncomputable def normalizeVec (v : List ℝ) : List ℝ :=
  if 0 < euclNorm v then v.map (fun x => x / euclNorm v) else v

/-- `createEmbedding`: hashed bag-of-words vector, unit-normalised when its
magnitude is positive and returned as the all-zero vector otherwise. -/
noncomputable def createEmbedding (text : String) : List ℝ :=
  normalizeVec ((rawEmbedding text).map (fun (n : Nat) => (n : ℝ)))

/-- The dot-product loop of `calculateSimilarity` (over the common length). -/
noncomputable def dotProduct (a b : List ℝ) : ℝ :=
  (a.zip b).foldl (fun s p => s + p.1 * p.2) 0

/-- `calculateSimilarity`: throws `'Embeddings must have the same dimensions'`
when the lengths differ, and otherwise returns the dot product (cosine
similarity for unit vectors). -/
noncomputable def calculateSimilarity (e1 e2 : List ℝ) : Except String ℝ :=
  if e1.length ≠ e2.length then
    Except.error "Embeddings must have the same dimensions"
  else
    Except.ok (dotProduct e1 e2)

/-! ### The data model and the corpus accessor -/

/-- A retrieval result (`RetrievalResult` interface): text, provenance label
and relevance score. -/
structure RetrievalResult where
  text : String
  source : String
  score : ℝ

/-- The answer structure (`AnswerResult` interface).  The related-ID fields
are optional in the source and are omitted by the error branch, hence
`Option`. -/
structure AnswerResult where
  text : String
  sources : List String
  relatedObservationIds : Option (List String)
  relatedSpeciesIds : Option (List String)
deriving DecidableEq

/-- A knowledge entry, restricted to the fields the engine reads. -/
structure Knowledge where
  title : String
  content : String
  source : Option String
deriving DecidableEq

/-- A species record, restricted to the fields the engine reads; the `type`
enumeration value is kept as its string rendering, which is all the text
projection uses. -/
structure Species where
  scientificName : String
  commonNames : List String
  type : String
  description : String
  habitat : String
deriving DecidableEq

/-- An observation record, restricted to the fields the engine reads.  The
coordinates enter the pipeline only through their textual rendering inside
the projection string, so they are modelled by that rendering; `createdAt`
is the record's creation timestamp (epoch milliseconds). -/
structure Observation where
  speciesName : String
  coordinates : List String
  description : Option String
  createdAt : Nat
deriving DecidableEq

/-- The read-only corpus accessor (`storage.getAllKnowledge`,
`storage.getAllSpecies`, `storage.getAllObservations`).  Each fetch is an
awaited asynchronous call that may reject, modelled by `Except`. -/
structure Storage where
  getAllKnowledge : Except String (List Knowledge)
  getAllSpecies : Except String (List Species)
  getAllObservations : Except String (List Observation)

/-- The knowledge-entry source label `entry.source || 'Internal Knowledge
Base'`. -/
def knowledgeSource (e : Knowledge) : String := jsOr e.source "Internal Knowledge Base"

/-- The text projection of a species record (retrieveRelevantInfo, line 158). -/
def speciesText (sp : Species) : String :=
  sp.scientificName ++ " (" ++ String.intercalate ", " sp.commonNames ++ "): " ++
    sp.description ++ ". Habitat: " ++ sp.habitat ++ ". Type: " ++ sp.type ++ "."

/-- The text projection of an observation record (retrieveRelevantInfo,
line 177). -/
def observationText (o : Observation) : String :=
  "Observation of " ++ o.speciesName ++ " at coordinates [" ++
    String.intercalate ", " o.coordinates ++ "]. " ++ jsOr o.description ""

/-- `observations.slice(0, 50)` (retrieveRelevantInfo, line 173): the
sequence of observations that is actually scored. -/
def recentObservations (l : List Observation) : List Observation := l.take 50

/-! ### The retriever -/

/-- One iteration of a scoring loop: embed the record's projection, compute
the similarity with the query embedding (which may throw a dimension
mismatch) and append a result when the score clears the 0.2 threshold. -/
noncomputable def scoreRecord (qe : List ℝ) (embedText resultText src : String)
    (acc : List RetrievalResult) : Except String (List RetrievalResult) := do
  let similarity ← calculateSimilarity qe (createEmbedding embedText)
  pure (if (0.2 : ℝ) < similarity then
          acc ++ [⟨resultText, src, similarity⟩]
        else acc)

/-- Sort order used for the final ranking: descending relevance score
(`(a, b) => b.score - a.score`). -/
def scoreGe (a b : RetrievalResult) : Prop := b.score ≤ a.score

noncomputable instance : DecidableRel scoreGe :=
  fun a b => inferInstanceAs (Decidable (b.score ≤ a.score))

instance : IsTotal RetrievalResult scoreGe := ⟨fun a b => le_total b.score a.score⟩

instance : IsTrans RetrievalResult scoreGe := ⟨fun _ _ _ h1 h2 => le_trans h2 h1⟩

/-- The body of `retrieveRelevantInfo`'s `try` block: fetch and score the
three corpora in order, then sort by descending score and keep the top 5. -/
noncomputable def retrieveBody (s : Storage) (qe : List ℝ) :
    Except String (List RetrievalResult) := do
  let knowledgeEntries ← s.getAllKnowledge
  let results ← knowledgeEntries.foldlM
    (fun acc entry =>
      scoreRecord qe (entry.title ++ " " ++ entry.content) entry.content
        (knowledgeSource entry) acc) []
  let species ← s.getAllSpecies
  let results ← species.foldlM
    (fun acc sp =>
      scoreRecord qe (speciesText sp) (speciesText sp)
        ("Species Database: " ++ sp.scientificName) acc) results
  let observations ← s.getAllObservations
  let results ← (recentObservations observations).foldlM
    (fun acc o =>
      scoreRecord qe (observationText o) (observationText o)
        ("User Observation: " ++ o.speciesName) acc) results
  pure ((results.insertionSort scoreGe).take 5)

/-- `retrieveRelevantInfo`: compute the query embedding, run the scoring
body, and degrade to the empty list on any caught error. -/
noncomputable def retrieveRelevantInfo (s : Storage) (query : String) :
    List RetrievalResult :=
  match retrieveBody s (createEmbedding query) with
  | Except.ok results => results
  | Except.error _ => []

/-! ### The fallback searcher -/

/-- `searchInternet`: the external search is simulated — the augmented query
is constructed but the function unconditionally returns one mock result with
score 0.6. -/
noncomputable def searchInternet (query : String) : List RetrievalResult :=
  let _searchQuery := query ++ " Islamabad Pakistan biodiversity flora fauna"
  [⟨"Information about " ++ query ++
      " in Islamabad region could be found in local guidebooks or by contacting the Islamabad Wildlife Management Board. The Margalla Hills National Park is home to diverse wildlife including various bird species, monkeys, and occasionally leopards.",
    "Internet Search Result (Note: Without internet access, this is general information)",
    (0.6 : ℝ)⟩]

/-! ### The answer composer -/

/-- JavaScript `String.prototype.includes`: substring containment. -/
def containsSubstr (s pat : String) : Bool :=
  (List.range (s.toList.length + 1)).any (fun i => pat.toList.isPrefixOf (s.toList.drop i))

/-- The fixed "no information available" message returned for an empty
document sequence. -/
def noInfoMessage (query : String) : String :=
  "I don't have specific information about " ++ query ++
    ". You might want to consult local experts or biodiversity guides specific to the Islamabad region."

/-- `generateResponse`: template-based answer composition.  The body of the
source's `try` block is pure, so its catch branch is unreachable in the
model. -/
def generateResponse (query : String) (retrievedInfo : List RetrievalResult) : String :=
  match retrievedInfo with
  | [] => noInfoMessage query
  | top :: rest =>
    let queryTerms := splitWhitespaceRuns (lowerChars query)
    let _keyTerms := queryTerms.filter (fun term => 3 < term.length)
    let isSpeciesQuery := queryTerms.any (fun term =>
      ["what", "species", "animal", "plant", "describe", "identify"].contains term)
    let isLocationQuery := queryTerms.any (fun term =>
      ["where", "habitat", "found", "live", "location", "area", "region"].contains term)
    let isSightingQuery := queryTerms.any (fun term =>
      ["seen", "spotted", "observed", "sighting", "reported", "found"].contains term)
    let response :=
      if isSpeciesQuery then
        match retrievedInfo.find? (fun info => containsSubstr info.source "Species Database") with
        | some speciesInfo => "Based on our information: " ++ speciesInfo.text ++ "\n\n"
        | none => "I found some information that might help answer your question about species in Islamabad:\n\n"
      else if isLocationQuery then
        "Regarding the habitat and location in Islamabad region:\n\n"
      else if isSightingQuery then
        let observations := retrievedInfo.filter (fun info =>
          containsSubstr info.source "User Observation")
        if 0 < observations.length then
          "Here are some relevant observations from our community:\n\n" ++
            String.intercalate "\n" (observations.map (fun obs => "- " ++ obs.text)) ++ "\n\n"
        else
          "I couldn't find specific observations matching your query, but here's what I know:\n\n"
      else
        "Here's what I found about \"" ++ query ++ "\" related to Islamabad's biodiversity:\n\n"
    let response :=
      if containsSubstr response top.text then response else response ++ top.text ++ "\n\n"
    let response :=
      if 1 < retrievedInfo.length then
        response ++ "Additional information:\n" ++
          String.join ((rest.take 2).map (fun info => "- " ++ info.text ++ "\n"))
      else response
    response

/-! ### The orchestrator -/

/-- The fixed error answer returned by `answerWithRAG`'s catch block. -/
def ragErrorResult : AnswerResult where
  text := "Sorry, I encountered an error while processing your question. Please try again later."
  sources := ["System Error"]
  relatedObservationIds := none
  relatedSpeciesIds := none

/-- The body of `answerWithRAG`'s `try` block, over its three awaited
sub-computations (local retrieval, fallback search, composition), each of
which may reject. -/
def answerBody (retrieveFn searchFn : String → Except String (List RetrievalResult))
    (composeFn : String → List RetrievalResult → Except String String)
    (query : String) : Except String AnswerResult := do
  let retrievalResults ← retrieveFn query
  let retrievalResults ←
    if retrievalResults.length < 2 then do
      let internetResults ← searchFn query
      pure (retrievalResults ++ internetResults)
    else
      pure retrievalResults
  let answerText ← composeFn query retrievalResults
  pure { text := answerText
         sources := retrievalResults.map (fun r => r.source)
         relatedObservationIds := some []
         relatedSpeciesIds := some [] }

/-- The orchestrator's catch block: any rejection from the body is converted
into the fixed error answer. -/
def answerCatch (body : Except String AnswerResult) : AnswerResult :=
  match body with
  | Except.ok a => a
  | Except.error _ => ragErrorResult

/-- `answerWithRAG`: the public entry point, instantiating the body with the
concrete retrieval, fallback and composition steps (each of which handles
its own failures internally and therefore never rejects). -/
noncomputable def answerWithRAG (s : Storage) (query : String) : AnswerResult :=
  answerCatch (answerBody
    (fun q => Except.ok (retrieveRelevantInfo s q))
    (fun q => Except.ok (searchInternet q))
    (fun q results => Except.ok (generateResponse q results))
    query)

/-! ### The specification's view of the observation slice (claim C7)

Modelled from the spec: the specification asserts that the Retriever scores
"the most recent 50 records" of a "recency-ordered view" of the observation
store.  `MongoDBStorage.getAllObservations` performs `find({}).toArray()`
with no sort, so no such view exists in the code; the definition below
follows the spec's words (newest-first by creation timestamp) to be compared
with the code's `recentObservations`. -/
def specMostRecent50 (l : List Observation) : List Observation :=
  (l.insertionSort (fun a b => b.createdAt ≤ a.createdAt)).take 50

/-! ### Concrete data used in witnesses and the C7 counterexample -/

/-- A storage whose three fetches all succeed with empty collections. -/
def emptyStorage : Storage :=
  ⟨Except.ok [], Except.ok [], Except.ok []⟩

/-- An observation with the smallest creation timestamp. -/
def oldObservation : Observation :=
  ⟨"Common Myna", ["73.05", "33.70"], none, 0⟩

/-- An observation newer than every copy of `oldObservation`. -/
def newObservation : Observation :=
  ⟨"Snow Leopard", ["73.10", "33.75"], some "rare sighting near the trail", 1000⟩

/-- Fifty old observations followed by one newest observation: the store
order puts the newest record last. -/
def staleFirstObservations : List Observation :=
  List.replicate 50 oldObservation ++ [newObservation]

/-- A storage returning the `staleFirstObservations` list. -/
def staleFirstStorage : Storage :=
  ⟨Except.ok [], Except.ok [], Except.ok staleFirstObservations⟩

/-! ## Helper lemmas -/

/-! ### Except and foldlM plumbing -/

theorem exceptBind_ok {α β : Type} (a : α) (f : α → Except String β) :
    (Except.ok a >>= f) = f a := rfl

theorem exceptBind_error {α β : Type} (e : String) (f : α → Except String β) :
    ((Except.error e : Except String α) >>= f) = Except.error e := rfl

theorem exceptPure_eq_ok {α : Type} (a : α) : (pure a : Except String α) = Except.ok a := rfl

theorem exceptBind_eq_ok {α β : Type} {x : Except String α} {f : α → Except String β}
    {b : β} : x >>= f = Except.ok b ↔ ∃ a, x = Except.ok a ∧ f a = Except.ok b := by
  cases x with
  | ok a => simp [exceptBind_ok]
  | error e => simp [exceptBind_error]

theorem foldlM_const_ok {α β : Type} (f : β → α → Except String β)
    (h : ∀ acc x, f acc x = Except.ok acc) :
    ∀ (l : List α) (acc : β), List.foldlM f acc l = Except.ok acc := by
  intro l
  induction l with
  | nil => intro acc; rfl
  | cons x xs ih =>
    intro acc
    rw [List.foldlM_cons, h, exceptBind_ok]
    exact ih acc

/-! ### Embedding dimensions -/

theorem addAt_length (v : List Nat) : ∀ i x : Nat, (addAt v i x).length = v.length := by
  induction v with
  | nil => intro i x; rfl
  | cons a rest ih =>
    intro i x
    cases i with
    | zero => rfl
    | succ j => simp only [addAt, List.length_cons, ih]

theorem foldl_addAt_length (m : List (String × Nat)) :
    ∀ v : List Nat,
      (m.foldl (fun emb p => addAt emb (bucket p.1) p.2) v).length = v.length := by
  induction m with
  | nil => intro v; rfl
  | cons p rest ih =>
    intro v
    rw [List.foldl_cons, ih]
    exact addAt_length ..

theorem rawEmbedding_length (t : String) : (rawEmbedding t).length = VECTOR_SIZE := by
  unfold rawEmbedding
  rw [foldl_addAt_length]
  exact List.length_replicate ..

theorem normalizeVec_length (v : List ℝ) : (normalizeVec v).length = v.length := by
  unfold normalizeVec
  split
  · exact List.length_map ..
  · rfl

theorem createEmbedding_length (t : String) : (createEmbedding t).length = VECTOR_SIZE := by
  unfold createEmbedding
  rw [normalizeVec_length, List.length_map]
  exact rawEmbedding_length t

/-! ### Similarity -/

theorem calculateSimilarity_of_eq_length {e1 e2 : List ℝ} (h : e1.length = e2.length) :
    calculateSimilarity e1 e2 = Except.ok (dotProduct e1 e2) := by
  unfold calculateSimilarity
  rw [if_neg (by simp [h])]

theorem calculateSimilarity_of_ne_length {e1 e2 : List ℝ} (h : e1.length ≠ e2.length) :
    calculateSimilarity e1 e2 = Except.error "Embeddings must have the same dimensions" := by
  unfold calculateSimilarity
  rw [if_pos h]

theorem scoreRecord_embedding_eq {q : String} (et rt src : String)
    (acc : List RetrievalResult) :
    scoreRecord (createEmbedding q) et rt src acc =
      Except.ok
        (if (0.2 : ℝ) < dotProduct (createEmbedding q) (createEmbedding et) then
          acc ++ [⟨rt, src, dotProduct (createEmbedding q) (createEmbedding et)⟩]
        else acc) := by
  unfold scoreRecord
  rw [calculateSimilarity_of_eq_length (by rw [createEmbedding_length, createEmbedding_length]),
    exceptBind_ok]
  rfl

/-! ### Threshold invariant of the scoring loops -/

theorem scoreRecord_ok_mem {qe : List ℝ} {et rt src : String}
    {acc acc' : List RetrievalResult}
    (h : scoreRecord qe et rt src acc = Except.ok acc') :
    ∀ d ∈ acc', d ∈ acc ∨ (0.2 : ℝ) < d.score := by
  intro d hd
  unfold scoreRecord at h
  by_cases hl : qe.length = (createEmbedding et).length
  · rw [calculateSimilarity_of_eq_length hl, exceptBind_ok] at h
    by_cases hsim : (0.2 : ℝ) < dotProduct qe (createEmbedding et)
    · rw [if_pos hsim, exceptPure_eq_ok] at h
      injection h with h
      subst h
      rcases List.mem_append.mp hd with h1 | h2
      · exact Or.inl h1
      · rw [List.mem_singleton] at h2
        subst h2
        exact Or.inr hsim
    · rw [if_neg hsim, exceptPure_eq_ok] at h
      injection h with h
      subst h
      exact Or.inl hd
  · rw [calculateSimilarity_of_ne_length hl, exceptBind_error] at h
    simp at h

theorem foldlM_mem_invariant {α : Type}
    (f : List RetrievalResult → α → Except String (List RetrievalResult))
    (hf : ∀ acc x acc', f acc x = Except.ok acc' →
      ∀ d ∈ acc', d ∈ acc ∨ (0.2 : ℝ) < d.score) :
    ∀ (l : List α) (acc res : List RetrievalResult),
      List.foldlM f acc l = Except.ok res →
      ∀ d ∈ res, d ∈ acc ∨ (0.2 : ℝ) < d.score := by
  intro l
  induction l with
  | nil =>
    intro acc res h d hd
    rw [List.foldlM_nil, exceptPure_eq_ok] at h
    injection h with h
    subst h
    exact Or.inl hd
  | cons x xs ih =>
    intro acc res h d hd
    rw [List.foldlM_cons] at h
    cases hstep : f acc x with
    | error e =>
      rw [hstep, exceptBind_error] at h
      simp at h
    | ok acc1 =>
      rw [hstep, exceptBind_ok] at h
      rcases ih acc1 res h d hd with hmem | hsc
      · exact hf acc x acc1 hstep d hmem
      · exact Or.inr hsc

/-- Dissection of a successful `retrieveBody` run: the result is the top 5 of
the descending sort of a candidate list all of whose scores clear the 0.2
threshold. -/
theorem retrieveBody_ok_spec {s : Storage} {qe : List ℝ} {res : List RetrievalResult}
    (h : retrieveBody s qe = Except.ok res) :
    ∃ base : List RetrievalResult,
      res = (base.insertionSort scoreGe).take 5 ∧ ∀ d ∈ base, (0.2 : ℝ) < d.score := by
  unfold retrieveBody at h
  simp only [exceptBind_eq_ok, exceptPure_eq_ok, Except.ok.injEq] at h
  obtain ⟨ke, hke, r1, hr1, sp, hsp, r2, hr2, ob, hob, r3, hr3, hres⟩ := h
  refine ⟨r3, hres.symm, ?_⟩
  intro d hd
  rcases foldlM_mem_invariant _ (fun acc x acc' hs => scoreRecord_ok_mem hs)
      _ _ _ hr3 d hd with hd2 | hsc
  · rcases foldlM_mem_invariant _ (fun acc x acc' hs => scoreRecord_ok_mem hs)
        _ _ _ hr2 d hd2 with hd1 | hsc
    · rcases foldlM_mem_invariant _ (fun acc x acc' hs => scoreRecord_ok_mem hs)
          _ _ _ hr1 d hd1 with hd0 | hsc
      · exact absurd hd0 (List.not_mem_nil d)
      · exact hsc
    · exact hsc
  · exact hsc

/-! ### Sum-of-squares arithmetic for the normalisation step -/

theorem foldl_sumSq_aux : ∀ (l : List ℝ) (a : ℝ),
    l.foldl (fun s x => s + x * x) a = a + (l.map (fun x => x * x)).sum := by
  intro l
  induction l with
  | nil => intro a; simp
  | cons x xs ih =>
    intro a
    rw [List.foldl_cons, ih, List.map_cons, List.sum_cons]
    ring

theorem sumSq_eq_sum_map (l : List ℝ) : sumSq l = (l.map (fun x => x * x)).sum := by
  unfold sumSq
  rw [foldl_sumSq_aux, zero_add]

theorem sumSq_nonneg (l : List ℝ) : 0 ≤ sumSq l := by
  rw [sumSq_eq_sum_map]
  refine List.sum_nonneg ?_
  intro y hy
  obtain ⟨x, -, rfl⟩ := List.mem_map.mp hy
  exact mul_self_nonneg x

theorem sum_map_div (c : ℝ) : ∀ l : List ℝ, (l.map (fun x => x / c)).sum = l.sum / c := by
  intro l
  induction l with
  | nil => simp
  | cons x xs ih =>
    rw [List.map_cons, List.sum_cons, List.sum_cons, ih, add_div]

theorem sumSq_map_div (l : List ℝ) (c : ℝ) :
    sumSq (l.map (fun x => x / c)) = sumSq l / (c * c) := by
  rw [sumSq_eq_sum_map, sumSq_eq_sum_map, List.map_map]
  have hcomp : ((fun x => x * x) ∘ fun x => x / c) = fun x => (x * x) / (c * c) := by
    funext x
    simp [Function.comp, div_mul_div_comm]
  rw [hcomp]
  have hmap : (l.map fun x => x * x / (c * c)) =
      ((l.map fun x => x * x).map fun y => y / (c * c)) := by
    rw [List.map_map]
    rfl
  rw [hmap, sum_map_div]

theorem sumSq_replicate_zero (n : Nat) : sumSq (List.replicate n (0 : ℝ)) = 0 := by
  rw [sumSq_eq_sum_map, List.map_replicate]
  simp

theorem euclNorm_replicate_zero (n : Nat) : euclNorm (List.replicate n (0 : ℝ)) = 0 := by
  unfold euclNorm
  rw [sumSq_replicate_zero, Real.sqrt_zero]

theorem normalizeVec_replicate_zero (n : Nat) :
    normalizeVec (List.replicate n (0 : ℝ)) = List.replicate n 0 := by
  unfold normalizeVec
  rw [euclNorm_replicate_zero]
  exact if_neg (lt_irrefl 0)

theorem euclNorm_map_div_self {v : List ℝ} (h : 0 < sumSq v) :
    euclNorm (v.map (fun x => x / euclNorm v)) = 1 := by
  unfold euclNorm
  rw [sumSq_map_div, Real.mul_self_sqrt (le_of_lt h), div_self (ne_of_gt h),
    Real.sqrt_one]

/-- The zero vector is absorbing for the dot product. -/
theorem dotProduct_replicate_zero_aux : ∀ (b : List ℝ) (n : Nat) (a : ℝ),
    ((List.replicate n (0 : ℝ)).zip b).foldl (fun s p => s + p.1 * p.2) a = a := by
  intro b
  induction b with
  | nil =>
    intro n a
    cases n with
    | zero => rfl
    | succ m => rfl
  | cons y ys ih =>
    intro n a
    cases n with
    | zero => rfl
    | succ m =>
      rw [List.replicate_succ, List.zip_cons_cons, List.foldl_cons, zero_mul, add_zero]
      exact ih m a

theorem dotProduct_replicate_zero (n : Nat) (b : List ℝ) :
    dotProduct (List.replicate n 0) b = 0 :=
  dotProduct_replicate_zero_aux b n 0

/-! ### Frequency bookkeeping: token counts flow into the raw vector -/

theorem bump_sum (w : String) : ∀ m : List (String × Nat),
    ((bump m w).map (fun p => p.2)).sum = (m.map (fun p => p.2)).sum + 1 := by
  intro m
  induction m with
  | nil => rfl
  | cons kv rest ih =>
    obtain ⟨k, v⟩ := kv
    by_cases hk : k = w
    · simp only [bump, if_pos hk, List.map_cons, List.sum_cons]
      omega
    · simp only [bump, if_neg hk, List.map_cons, List.sum_cons, ih]
      omega

theorem wordFreq_fold_sum : ∀ (ws : List String) (m : List (String × Nat)),
    (((ws.foldl (fun m w => if 2 < w.length then bump m w else m) m).map
        (fun p => p.2)).sum) =
      (m.map (fun p => p.2)).sum + (ws.filter (fun w => 2 < w.length)).length := by
  intro ws
  induction ws with
  | nil => intro m; simp
  | cons w rest ih =>
    intro m
    rw [List.foldl_cons]
    by_cases hw : 2 < w.length
    · have hf : (w :: rest).filter (fun w => 2 < w.length) =
          w :: rest.filter (fun w => 2 < w.length) := by
        simp [List.filter_cons, hw]
      rw [if_pos hw, ih, bump_sum, hf, List.length_cons]
      omega
    · have hf : (w :: rest).filter (fun w => 2 < w.length) =
          rest.filter (fun w => 2 < w.length) := by
        simp [List.filter_cons, hw]
      rw [if_neg hw, ih, hf]

theorem wordFreq_sum (ws : List String) :
    ((wordFreq ws).map (fun p => p.2)).sum = (ws.filter (fun w => 2 < w.length)).length := by
  unfold wordFreq
  rw [wordFreq_fold_sum]
  simp

theorem wordFreq_nil_of_short : ∀ ws : List String,
    (∀ w ∈ ws, ¬ 2 < w.length) → wordFreq ws = [] := by
  intro ws
  unfold wordFreq
  induction ws with
  | nil => intro h; rfl
  | cons w rest ih =>
    intro h
    rw [List.foldl_cons, if_neg (h w (List.mem_cons_self ..))]
    exact ih (fun x hx => h x (List.mem_cons_of_mem _ hx))

theorem bucket_lt (w : String) : bucket w < VECTOR_SIZE :=
  Nat.mod_lt _ (by norm_num [VECTOR_SIZE])

theorem addAt_sum : ∀ (v : List Nat) (i x : Nat), i < v.length →
    (addAt v i x).sum = v.sum + x := by
  intro v
  induction v with
  | nil =>
    intro i x h
    simp at h
  | cons a rest ih =>
    intro i x h
    cases i with
    | zero =>
      simp only [addAt, List.sum_cons]
      omega
    | succ j =>
      simp only [addAt, List.sum_cons]
      rw [ih j x (by simpa using h)]
      omega

theorem foldl_addAt_sum : ∀ (m : List (String × Nat)) (v : List Nat),
    v.length = VECTOR_SIZE →
    (m.foldl (fun emb p => addAt emb (bucket p.1) p.2) v).sum =
      v.sum + (m.map (fun p => p.2)).sum := by
  intro m
  induction m with
  | nil =>
    intro v hv
    simp
  | cons p rest ih =>
    intro v hv
    rw [List.foldl_cons, ih _ (by rw [addAt_length]; exact hv),
      addAt_sum v (bucket p.1) p.2 (by rw [hv]; exact bucket_lt p.1),
      List.map_cons, List.sum_cons]
    omega

theorem rawEmbedding_sum (t : String) :
    (rawEmbedding t).sum = (retainedTokens t).length := by
  unfold rawEmbedding
  rw [foldl_addAt_sum _ _ (List.length_replicate ..), wordFreq_sum]
  simp [List.sum_replicate, retainedTokens]

theorem rawEmbedding_of_no_retained {t : String} (h : retainedTokens t = []) :
    rawEmbedding t = List.replicate VECTOR_SIZE 0 := by
  have h' : ∀ w ∈ words t, ¬ 2 < w.length := by
    intro w hw
    have := List.filter_eq_nil_iff.mp h w hw
    simpa using this
  unfold rawEmbedding
  rw [wordFreq_nil_of_short (words t) h']
  rfl

theorem createEmbedding_of_no_retained {t : String} (h : retainedTokens t = []) :
    createEmbedding t = List.replicate VECTOR_SIZE (0 : ℝ) := by
  unfold createEmbedding
  rw [rawEmbedding_of_no_retained h, List.map_replicate]
  rw [show ((0 : Nat) : ℝ) = (0 : ℝ) from Nat.cast_zero]
  exact normalizeVec_replicate_zero VECTOR_SIZE

theorem sumSq_cast_pos {v : List Nat} (h : 0 < v.sum) :
    0 < sumSq (v.map (fun (n : Nat) => (n : ℝ))) := by
  have hx : ∃ x ∈ v, 0 < x := by
    by_contra hc
    push_neg at hc
    have h0 : v.sum = 0 := List.sum_eq_zero (fun x hxv => Nat.le_zero.mp (hc x hxv))
    omega
  obtain ⟨x, hxv, hxpos⟩ := hx
  rw [sumSq_eq_sum_map]
  have hmem : ((x : ℝ) * x) ∈ ((v.map (fun (n : Nat) => (n : ℝ))).map (fun y => y * y)) := by
    rw [List.map_map]
    exact List.mem_map.mpr ⟨x, hxv, rfl⟩
  have hnn : ∀ y ∈ ((v.map (fun (n : Nat) => (n : ℝ))).map (fun y => y * y)), 0 ≤ y := by
    intro y hy
    obtain ⟨z, -, rfl⟩ := List.mem_map.mp hy
    exact mul_self_nonneg z
  have hle := List.single_le_sum hnn _ hmem
  have hxr : (0 : ℝ) < (x : ℝ) * x :=
    mul_pos (by exact_mod_cast hxpos) (by exact_mod_cast hxpos)
  exact lt_of_lt_of_le hxr hle

/-- With the zero query embedding every scoring step leaves the accumulator
unchanged: the similarity is 0, which does not clear the 0.2 threshold. -/
theorem scoreRecord_zero_query (et rt src : String) (acc : List RetrievalResult) :
    scoreRecord (List.replicate VECTOR_SIZE (0 : ℝ)) et rt src acc = Except.ok acc := by
  unfold scoreRecord
  rw [calculateSimilarity_of_eq_length
      (by rw [List.length_replicate, createEmbedding_length]),
    exceptBind_ok, dotProduct_replicate_zero, if_neg (by norm_num)]
  rfl

theorem retrieveRelevantInfo_eq_of_ok {s : Storage} {q : String}
    {res : List RetrievalResult}
    (h : retrieveBody s (createEmbedding q) = Except.ok res) :
    retrieveRelevantInfo s q = res := by
  unfold retrieveRelevantInfo
  rw [h]

theorem retrieveRelevantInfo_eq_of_error {s : Storage} {q : String} {e : String}
    (h : retrieveBody s (createEmbedding q) = Except.error e) :
    retrieveRelevantInfo s q = [] := by
  unfold retrieveRelevantInfo
  rw [h]

/-! ## Claim theorems -/

/-- C2: for every query and every corpus contents, every document returned by
`retrieveRelevantInfo` has a relevance score strictly greater than 0.2; no
document with score ≤ 0.2 is ever returned. -/
theorem retrieveRelevantInfo_score_gt_threshold (s : Storage) (q : String) :
    List.Forall (fun d => (0.2 : ℝ) < d.score) (retrieveRelevantInfo s q) := by
  rw [List.forall_iff_forall_mem]
  intro d hd
  cases hb : retrieveBody s (createEmbedding q) with
  | error e =>
    rw [retrieveRelevantInfo_eq_of_error hb] at hd
    exact absurd hd (List.not_mem_nil d)
  | ok res =>
    rw [retrieveRelevantInfo_eq_of_ok hb] at hd
    obtain ⟨base, hbase, hsc⟩ := retrieveBody_ok_spec hb
    subst hbase
    exact hsc d
      ((List.perm_insertionSort scoreGe base).subset ((List.take_sublist 5 _).subset hd))

/-- C3: for every query and every corpus contents, `retrieveRelevantInfo`
returns at most 5 documents, and the returned sequence is sorted in
descending order of relevance score. -/
theorem retrieveRelevantInfo_top5_sorted_desc (s : Storage) (q : String) :
    (retrieveRelevantInfo s q).length ≤ 5 ∧
      List.Sorted scoreGe (retrieveRelevantInfo s q) := by
  cases hb : retrieveBody s (createEmbedding q) with
  | error e =>
    rw [retrieveRelevantInfo_eq_of_error hb]
    exact ⟨by simp, List.sorted_nil⟩
  | ok res =>
    rw [retrieveRelevantInfo_eq_of_ok hb]
    obtain ⟨base, hbase, -⟩ := retrieveBody_ok_spec hb
    subst hbase
    exact ⟨List.length_take_le 5 _,
      List.Pairwise.sublist (List.take_sublist 5 _)
        (List.sorted_insertionSort scoreGe base)⟩

/-- C1: the orchestrator appends the external fallback results after the
local results exactly when local retrieval returned fewer than 2 documents,
and otherwise uses the local results alone; in the fallback case the final
sources list puts the local labels (computed first) before the external
ones, with no re-sorting by score. -/
theorem answerWithRAG_sources_fallback (s : Storage) (q : String) :
    (answerWithRAG s q).sources =
      if (retrieveRelevantInfo s q).length < 2 then
        (retrieveRelevantInfo s q).map (fun r => r.source) ++
          (searchInternet q).map (fun r => r.source)
      else
        (retrieveRelevantInfo s q).map (fun r => r.source) := by
  unfold answerWithRAG answerBody answerCatch
  simp only [exceptBind_ok]
  by_cases h : (retrieveRelevantInfo s q).length < 2
  · rw [if_pos h, if_pos h]
    simp only [exceptBind_ok, exceptPure_eq_ok, List.map_append]
  · rw [if_neg h, if_neg h]
    rfl

/-- C5: the orchestrator never lets an exception escape: whenever any failure
inside retrieval, fallback search, or composition propagates to the
orchestrator's body, the catch block returns the fixed generic failure
message with the single source label 'System Error'. -/
theorem answerCatch_error_fixed_result
    (retrieveFn searchFn : String → Except String (List RetrievalResult))
    (composeFn : String → List RetrievalResult → Except String String)
    (q e : String)
    (h : answerBody retrieveFn searchFn composeFn q = Except.error e) :
    answerCatch (answerBody retrieveFn searchFn composeFn q) =
      { text := "Sorry, I encountered an error while processing your question. Please try again later."
        sources := ["System Error"]
        relatedObservationIds := none
        relatedSpeciesIds := none } := by
  unfold answerCatch
  rw [h]
  rfl

theorem answerCatch_error_fixed_result_witness :
    answerBody (fun _ => Except.error "database unavailable")
        (fun q => Except.ok (searchInternet q))
        (fun q r => Except.ok (generateResponse q r)) "leopards" =
      Except.error "database unavailable" ∧
    answerCatch (answerBody (fun _ => Except.error "database unavailable")
        (fun q => Except.ok (searchInternet q))
        (fun q r => Except.ok (generateResponse q r)) "leopards") =
      { text := "Sorry, I encountered an error while processing your question. Please try again later."
        sources := ["System Error"]
        relatedObservationIds := none
        relatedSpeciesIds := none } :=
  ⟨rfl, answerCatch_error_fixed_result _ _ _ _ _ rfl⟩

/-- C9: for every query, composing an answer from an empty document sequence
returns the fixed no-information templated message that references the query
text and suggests consulting local experts; this is a normal return, not an
error. -/
theorem generateResponse_empty_docs (q : String) :
    generateResponse q [] =
      "I don't have specific information about " ++ q ++
        ". You might want to consult local experts or biodiversity guides specific to the Islamabad region." :=
  rfl

/-- C10: for every query, the simulated fallback search returns exactly one
document with fixed score 0.6, an internet-search source label, and a text
interpolating the query into a fixed template, independent of any external
state; in particular it is never empty and never fails. -/
theorem searchInternet_fixed_mock (q : String) :
    searchInternet q =
      [⟨"Information about " ++ q ++
          " in Islamabad region could be found in local guidebooks or by contacting the Islamabad Wildlife Management Board. The Margalla Hills National Park is home to diverse wildlife including various bird species, monkeys, and occasionally leopards.",
        "Internet Search Result (Note: Without internet access, this is general information)",
        (0.6 : ℝ)⟩] ∧
    (searchInternet q).length = 1 :=
  ⟨rfl, rfl⟩

/-- C4: for every input text with at least one retained token (length > 2
after lowercasing, stripping and whitespace splitting), the embedding has
Euclidean norm 1; for every text with no retained token it is the all-zero
vector of dimension 128. -/
theorem createEmbedding_norm (t : String) :
    (retainedTokens t ≠ [] → euclNorm (createEmbedding t) = 1) ∧
      (retainedTokens t = [] → createEmbedding t = List.replicate VECTOR_SIZE (0 : ℝ)) := by
  constructor
  · intro h
    have hpos : 0 < (retainedTokens t).length := List.length_pos.mpr h
    have hsum : 0 < (rawEmbedding t).sum := by
      rw [rawEmbedding_sum]
      exact hpos
    have hS : 0 < sumSq ((rawEmbedding t).map (fun (n : Nat) => (n : ℝ))) :=
      sumSq_cast_pos hsum
    have hmag : 0 < euclNorm ((rawEmbedding t).map (fun (n : Nat) => (n : ℝ))) :=
      Real.sqrt_pos.mpr hS
    unfold createEmbedding normalizeVec
    rw [if_pos hmag]
    exact euclNorm_map_div_self hS
  · exact fun h => createEmbedding_of_no_retained h

theorem createEmbedding_norm_witness :
    retainedTokens "eagle" ≠ [] ∧ euclNorm (createEmbedding "eagle") = 1 :=
  ⟨by decide, (createEmbedding_norm "eagle").1 (by decide)⟩

/-- C6: for every query whose tokens all have length ≤ 2 (no retained
tokens, hence the all-zero query embedding), retrieval returns the empty
sequence regardless of corpus contents — the zero vector's dot product with
any document embedding is 0, below the 0.2 threshold — and consequently the
fallback path is taken, the answer's sources being exactly the external
search's labels. -/
theorem retrieve_zero_query_empty (s : Storage) (q : String)
    (h : retainedTokens q = []) :
    retrieveRelevantInfo s q = [] ∧
      (answerWithRAG s q).sources = (searchInternet q).map (fun r => r.source) := by
  have hq : createEmbedding q = List.replicate VECTOR_SIZE (0 : ℝ) :=
    createEmbedding_of_no_retained h
  have hret : retrieveRelevantInfo s q = [] := by
    unfold retrieveRelevantInfo retrieveBody
    rw [hq]
    cases hk : s.getAllKnowledge with
    | error e => rw [exceptBind_error]
    | ok ke =>
      rw [exceptBind_ok,
        foldlM_const_ok _ (fun acc x => scoreRecord_zero_query _ _ _ acc) ke [],
        exceptBind_ok]
      cases hsp : s.getAllSpecies with
      | error e => rw [exceptBind_error]
      | ok sps =>
        rw [exceptBind_ok,
          foldlM_const_ok _ (fun acc x => scoreRecord_zero_query _ _ _ acc) sps [],
          exceptBind_ok]
        cases hob : s.getAllObservations with
        | error e => rw [exceptBind_error]
        | ok obs =>
          rw [exceptBind_ok,
            foldlM_const_ok _ (fun acc x => scoreRecord_zero_query _ _ _ acc)
              (recentObservations obs) [],
            exceptBind_ok]
          rfl
  refine ⟨hret, ?_⟩
  unfold answerWithRAG answerBody answerCatch
  simp only [exceptBind_ok, hret]
  rw [if_pos (by norm_num : ([] : List RetrievalResult).length < 2)]
  simp only [exceptBind_ok, exceptPure_eq_ok, List.nil_append]

theorem retrieve_zero_query_empty_witness :
    retainedTokens "x y" = [] ∧ retrieveRelevantInfo staleFirstStorage "x y" = [] :=
  ⟨by decide, (retrieve_zero_query_empty staleFirstStorage "x y" (by decide)).1⟩

/-- C8: `calculateSimilarity` fails with the dimension-mismatch error exactly
when its inputs have unequal lengths and otherwise returns their dot
product; within the retrieval pipeline this error branch is unreachable
because `createEmbedding` always produces vectors of the fixed dimension
128, so every similarity call on two embeddings succeeds. -/
theorem calculateSimilarity_dimension_contract :
    (∀ a b : List ℝ, a.length ≠ b.length →
      calculateSimilarity a b = Except.error "Embeddings must have the same dimensions") ∧
    (∀ a b : List ℝ, a.length = b.length →
      calculateSimilarity a b = Except.ok (dotProduct a b)) ∧
    (∀ t : String, (createEmbedding t).length = VECTOR_SIZE) ∧
    (∀ q t : String,
      calculateSimilarity (createEmbedding q) (createEmbedding t) =
        Except.ok (dotProduct (createEmbedding q) (createEmbedding t))) :=
  ⟨fun _ _ h => calculateSimilarity_of_ne_length h,
    fun _ _ h => calculateSimilarity_of_eq_length h,
    createEmbedding_length,
    fun q t => calculateSimilarity_of_eq_length
      (by rw [createEmbedding_length, createEmbedding_length])⟩

theorem calculateSimilarity_dimension_contract_witness :
    ([(0 : ℝ)].length ≠ ([] : List ℝ).length) ∧
      calculateSimilarity [(0 : ℝ)] [] =
        Except.error "Embeddings must have the same dimensions" :=
  ⟨by simp, calculateSimilarity_dimension_contract.1 [(0 : ℝ)] [] (by simp)⟩

/-- C7 counterexample: the claim that the Retriever scores the most recent 50
entries of a recency-ordered view fails on the code.  With fifty older
records ahead of the newest record in the store's returned order, the
newest observation belongs to the specification's most-recent-50 slice but
not to the first-50 slice the code actually scores. -/
theorem recentObservations_misses_newest :
    newObservation ∈ specMostRecent50 staleFirstObservations ∧
      newObservation ∉ recentObservations staleFirstObservations := by
  constructor
  · decide
  · decide

/-- C7 (amended): the Retriever scores exactly the first 50 entries of the
sequence returned by `getAllObservations`, in the store's returned order and
with no recency sorting applied: replacing the store's observation list by
its first 50 entries leaves the retrieval result unchanged. -/
theorem retrieve_uses_first_50_observations (s : Storage) (q : String)
    (l : List Observation) (h : s.getAllObservations = Except.ok l) :
    retrieveRelevantInfo s q =
      retrieveRelevantInfo
        ⟨s.getAllKnowledge, s.getAllSpecies, Except.ok (l.take 50)⟩ q := by
  unfold retrieveRelevantInfo retrieveBody recentObservations
  rw [h]
  simp only [exceptBind_ok, List.take_take, Nat.min_self]

theorem retrieve_uses_first_50_observations_witness :
    staleFirstStorage.getAllObservations = Except.ok staleFirstObservations ∧
      retrieveRelevantInfo staleFirstStorage "leopard" =
        retrieveRelevantInfo
          ⟨staleFirstStorage.getAllKnowledge, staleFirstStorage.getAllSpecies,
            Except.ok (staleFirstObservations.take 50)⟩ "leopard" :=
  ⟨rfl, retrieve_uses_first_50_observations staleFirstStorage "leopard"
    staleFirstObservations rfl⟩

end BioScout
